import Mathlib

/-!
Verification of the webhook delivery subsystem of the Phloem consent-management
server (`server/app/services/webhook.py`, `server/app/schemas/webhook.py`,
`server/app/routers/webhooks.py`, `server/app/models/webhook.py`) against its
natural-language specification.

The Python sources are shallowly embedded as executable Lean definitions:

* JSON values and `json.dumps` are modelled by the inductive `Json` and
  `jsonDumps` (comma/colon separators as in the Python default, basic string
  escaping; `json.dumps` additionally escapes the remaining control characters
  and, by default, non-ASCII characters — no claim below depends on those).
* `hmac`/`hashlib` library calls are modelled by a full executable SHA-256
  (FIPS 180-4) and HMAC (RFC 2104) implementation over byte lists, with
  32-bit words represented as `Nat` reduced modulo `2 ^ 32`.
* The SQLAlchemy session is modelled by explicit state passing: a database is
  a `List Webhook`, and functions that persist rows return the stored values.
* The single outbound HTTP call of `deliver_webhook` is modelled by passing
  the network outcome (`HttpResult`) as an argument; the two `datetime.utcnow()`
  reads of `deliver_webhook` are modelled by two `Nat` instants (seconds),
  `tSend` for the envelope timestamp and `tDone` for the post-request reads.
-/

/-! ## Python string slicing -/

/-- Model of the Python slice `s[:n]`: the first `n` characters of `s`. -/
def strTake (s : String) (n : Nat) : String :=
  String.mk (s.data.take n)

/-! ## JSON values and `json.dumps` -/

/-- JSON values, as produced by the service layer.  Numbers are modelled as
integers; the webhook payloads built by the source contain no floats. -/
inductive Json where
  | null
  | bool (b : Bool)
  | num (n : Int)
  | str (s : String)
  | arr (elems : List Json)
  | obj (fields : List (String × Json))

/-- Escaping of a single character inside a JSON string literal, as done by
`json.dumps` for the characters that occur in the modelled payloads. -/
def jsonEscapeChar (c : Char) : String :=
  if c = '"' then "\\\""
  else if c = '\\' then "\\\\"
  else if c = '\n' then "\\n"
  else if c = '\t' then "\\t"
  else if c = '\r' then "\\r"
  else String.singleton c

/-- Escape a string for inclusion in a JSON document. -/
def jsonEscape (s : String) : String :=
  s.data.foldl (fun acc c => acc ++ jsonEscapeChar c) ""

mutual

/-- Model of `json.dumps` with the Python default separators
(`", "` between items, `": "` after keys). -/
def jsonDumps : Json → String
  | .null => "null"
  | .bool true => "true"
  | .bool false => "false"
  | .num n => toString n
  | .str s => "\"" ++ jsonEscape s ++ "\""
  | .arr xs => "[" ++ jsonDumpsList xs ++ "]"
  | .obj fs => "\x7b" ++ jsonDumpsObj fs ++ "\x7d"

/-- Serialize the comma-separated elements of a JSON array. -/
def jsonDumpsList : List Json → String
  | [] => ""
  | [x] => jsonDumps x
  | x :: y :: xs => jsonDumps x ++ ", " ++ jsonDumpsList (y :: xs)

/-- Serialize the comma-separated `"key": value` pairs of a JSON object. -/
def jsonDumpsObj : List (String × Json) → String
  | [] => ""
  | [(k, v)] => "\"" ++ jsonEscape k ++ "\": " ++ jsonDumps v
  | (k, v) :: p :: xs =>
      "\"" ++ jsonEscape k ++ "\": " ++ jsonDumps v ++ ", " ++ jsonDumpsObj (p :: xs)

end

/-! ## SHA-256 (FIPS 180-4) over byte lists

Bytes and 32-bit words are `Nat`s; every word-level operation reduces modulo
`2 ^ 32 = 4294967296`.  This models the `hashlib.sha256` library call. -/

/-- Addition modulo `2 ^ 32`. -/
def add32 (a b : Nat) : Nat := (a + b) % 4294967296

/-- Right rotation of a 32-bit word by `n` places. -/
def rotr32 (n x : Nat) : Nat :=
  ((x >>> n) ||| (x <<< (32 - n))) % 4294967296

/-- Bitwise complement of a 32-bit word. -/
def not32 (x : Nat) : Nat := x ^^^ 4294967295

/-- The SHA-256 `Ch` function. -/
def sha256Ch (x y z : Nat) : Nat := (x &&& y) ^^^ (not32 x &&& z)

/-- The SHA-256 `Maj` function. -/
def sha256Maj (x y z : Nat) : Nat := (x &&& y) ^^^ (x &&& z) ^^^ (y &&& z)

/-- The SHA-256 upper-case Sigma-0 function. -/
def sha256S0 (x : Nat) : Nat := rotr32 2 x ^^^ rotr32 13 x ^^^ rotr32 22 x

/-- The SHA-256 upper-case Sigma-1 function. -/
def sha256S1 (x : Nat) : Nat := rotr32 6 x ^^^ rotr32 11 x ^^^ rotr32 25 x

/-- The SHA-256 lower-case sigma-0 function. -/
def sha256s0 (x : Nat) : Nat := rotr32 7 x ^^^ rotr32 18 x ^^^ (x >>> 3)

/-- The SHA-256 lower-case sigma-1 function. -/
def sha256s1 (x : Nat) : Nat := rotr32 17 x ^^^ rotr32 19 x ^^^ (x >>> 10)

/-- The 64 SHA-256 round constants (FIPS 180-4, section 4.2.2, written in
decimal). -/
def sha256K : List Nat :=
  [1116352408, 1899447441, 3049323471, 3921009573, 961987163, 1508970993,
   2453635748, 2870763221, 3624381080, 310598401, 607225278, 1426881987,
   1925078388, 2162078206, 2614888103, 3248222580, 3835390401, 4022224774,
   264347078, 604807628, 770255983, 1249150122, 1555081692, 1996064986,
   2554220882, 2821834349, 2952996808, 3210313671, 3336571891, 3584528711,
   113926993, 338241895, 666307205, 773529912, 1294757372, 1396182291,
   1695183700, 1986661051, 2177026350, 2456956037, 2730485921, 2820302411,
   3259730800, 3345764771, 3516065817, 3600352804, 4094571909, 275423344,
   430227734, 506948616, 659060556, 883997877, 958139571, 1322822218,
   1537002063, 1747873779, 1955562222, 2024104815, 2227730452, 2361852424,
   2428436474, 2756734187, 3204031479, 3329325298]

/-- The SHA-256 initial hash value (FIPS 180-4, section 5.3.3, in decimal). -/
def sha256Init : List Nat :=
  [1779033703, 3144134277, 1013904242, 2773480762,
   1359893119, 2600822924, 528734635, 1541459225]

/-- Working state of the SHA-256 compression function (registers a–h). -/
structure Sha256State where
  ra : Nat
  rb : Nat
  rc : Nat
  rd : Nat
  re : Nat
  rf : Nat
  rg : Nat
  rh : Nat

/-- One round of the SHA-256 compression function. -/
def sha256Round (k w : Nat) (st : Sha256State) : Sha256State :=
  let t1 := add32 st.rh (add32 (sha256S1 st.re) (add32 (sha256Ch st.re st.rf st.rg) (add32 k w)))
  let t2 := add32 (sha256S0 st.ra) (sha256Maj st.ra st.rb st.rc)
  ⟨add32 t1 t2, st.ra, st.rb, st.rc, add32 st.rd t1, st.re, st.rf, st.rg⟩

/-- Expand a 64-byte block (given as bytes) into the 64-entry message
schedule. -/
def sha256Schedule (block : List Nat) : Array Nat :=
  let w16 : Array Nat := (List.range 16).toArray.map (fun i =>
    (block.getD (4 * i) 0) <<< 24 ||| (block.getD (4 * i + 1) 0) <<< 16 |||
    (block.getD (4 * i + 2) 0) <<< 8 ||| block.getD (4 * i + 3) 0)
  (List.range 48).foldl (fun w i =>
    w.push (add32 (sha256s1 (w.getD (i + 14) 0))
      (add32 (w.getD (i + 9) 0) (add32 (sha256s0 (w.getD (i + 1) 0)) (w.getD i 0))))) w16

/-- Compress one 64-byte block into the running hash value (8 words). -/
def sha256Compress (hs : List Nat) (block : List Nat) : List Nat :=
  let w := sha256Schedule block
  let st0 : Sha256State :=
    ⟨hs.getD 0 0, hs.getD 1 0, hs.getD 2 0, hs.getD 3 0,
     hs.getD 4 0, hs.getD 5 0, hs.getD 6 0, hs.getD 7 0⟩
  let stf := (List.range 64).foldl
    (fun st i => sha256Round (sha256K.getD i 0) (w.getD i 0) st) st0
  [add32 (hs.getD 0 0) stf.ra, add32 (hs.getD 1 0) stf.rb,
   add32 (hs.getD 2 0) stf.rc, add32 (hs.getD 3 0) stf.rd,
   add32 (hs.getD 4 0) stf.re, add32 (hs.getD 5 0) stf.rf,
   add32 (hs.getD 6 0) stf.rg, add32 (hs.getD 7 0) stf.rh]

/-- Big-endian bytes of a natural number, `n` bytes wide. -/
def natToBytesBE (width x : Nat) : List Nat :=
  (List.range width).map (fun i => (x >>> ((width - 1 - i) * 8)) % 256)

/-- SHA-256 message padding: append `0x80`, zero bytes to 56 mod 64, and the
64-bit big-endian bit length. -/
def sha256Pad (msg : List Nat) : List Nat :=
  let z := (64 + 56 - (msg.length + 1) % 64) % 64
  msg ++ [0x80] ++ List.replicate z 0 ++ natToBytesBE 8 (msg.length * 8)

/-- Split a byte list into 64-byte chunks, with explicit fuel so that the
recursion is structural (each step consumes at least one byte, so
`l.length` steps of fuel always suffice). -/
def chunks64Aux : Nat → List Nat → List (List Nat)
  | 0, _ => []
  | _ + 1, [] => []
  | fuel + 1, l => l.take 64 :: chunks64Aux fuel (l.drop 64)

/-- Split a byte list into 64-byte chunks. -/
def chunks64 (l : List Nat) : List (List Nat) :=
  chunks64Aux l.length l

/-- The eight 32-bit words of the SHA-256 digest of a byte list. -/
def sha256Words (msg : List Nat) : List Nat :=
  (chunks64 (sha256Pad msg)).foldl sha256Compress sha256Init

/-- Serialize hash words to bytes, big endian. -/
def wordsToBytes (ws : List Nat) : List Nat :=
  ws.foldr (fun x acc =>
    (x >>> 24) % 256 :: (x >>> 16) % 256 :: (x >>> 8) % 256 :: x % 256 :: acc) []

/-- SHA-256 digest of a byte list, as 32 bytes. -/
def sha256Bytes (msg : List Nat) : List Nat :=
  wordsToBytes (sha256Words msg)

/-! ## HMAC-SHA256 (RFC 2104), modelling Python's `hmac` module -/

/-- HMAC-SHA256 of a message under a key, as 32 digest bytes. -/
def hmacSha256 (key msg : List Nat) : List Nat :=
  let k0 := if key.length > 64 then sha256Bytes key else key
  let kpad := k0 ++ List.replicate (64 - k0.length) 0
  let ipadded := kpad.map (fun b => b ^^^ 0x36)
  let opadded := kpad.map (fun b => b ^^^ 0x5c)
  sha256Bytes (opadded ++ sha256Bytes (ipadded ++ msg))

/-- The lowercase hexadecimal digit character for a nibble:
`0`-`9` for values below ten, `a`-`f` above. -/
def hexDigitChar (n : Nat) : Char :=
  if n < 10 then Char.ofNat (48 + n) else Char.ofNat (87 + n)

/-- Lowercase hex encoding of a byte list (Python's `.hexdigest()`). -/
def hexOfBytes (bs : List Nat) : String :=
  String.mk (bs.foldr (fun b acc => hexDigitChar (b / 16) :: hexDigitChar (b % 16) :: acc) [])

/-- UTF-8 bytes of a string (Python's `str.encode('utf-8')`).  This is the
byte list underlying `String.toUTF8`, written without `ByteArray` so that it
reduces inside the kernel. -/
def strBytes (s : String) : List Nat :=
  (s.data.flatMap String.utf8EncodeChar).map (fun b => b.toNat)

/-! ## The Signature Engine (`services/webhook.py`, lines 21–33) -/

/-- Embedding of `generate_signature(payload, secret)`: the lowercase hex
HMAC-SHA256 digest of the UTF-8 payload bytes keyed by the UTF-8 secret
bytes. -/
def generate_signature (payload secret : String) : String :=
  hexOfBytes (hmacSha256 (strBytes secret) (strBytes payload))

/-- Embedding of `verify_signature(payload, signature, secret)`:
recompute the expected digest and compare.  `hmac.compare_digest` is a
constant-time string comparison; its value is string equality. -/
def verify_signature (payload signature secret : String) : Bool :=
  generate_signature payload secret == signature

set_option maxRecDepth 20000

/-- Validation of the SHA-256 model against the FIPS test vector for the
empty message. -/
theorem sha256_empty_vector :
    hexOfBytes (sha256Bytes []) =
      "e3b0c44298fc1c149afbf4c8996fb92427ae41e4649b934ca495991b7852b855" := by
  decide

/-- Validation of the HMAC model against RFC 4231 test case 2
(key `"Jefe"`, message `"what do ya want for nothing?"`). -/
theorem hmac_jefe_vector :
    generate_signature "what do ya want for nothing?" "Jefe" =
      "5bdcc146bf60754e6a042426089575c75a003f089d2739839dec58b964ec3843" := by
  decide

/-! ## Data model (`models/webhook.py`) -/

/-- Embedding of the `WebhookStatus` enum. -/
inductive WebhookStatus where
  | pending
  | success
  | failed
  | retrying
deriving Repr, DecidableEq

/-- The values of the `WebhookEvent` enum: the subscribable event
vocabulary. -/
def webhookEventValues : List String :=
  ["consent.granted", "consent.revoked", "consent.expired", "all"]

/-- Embedding of the `Webhook` row.  The source stores the event list
JSON-encoded in a text column (`events = json.dumps(events)`) and decodes it
with `json.loads` on every read; the column is modelled by the decoded list,
since the encode/decode pair composes to the identity. -/
structure Webhook where
  id : Nat
  uuid : String
  fiduciary_id : Nat
  name : String
  url : String
  secret : String
  events : List String
  is_active : Bool
deriving Repr, DecidableEq

/-- Embedding of the `WebhookDelivery` row.  Timestamps are `Nat` seconds. -/
structure WebhookDelivery where
  uuid : String
  webhook_id : Nat
  event_type : String
  payload : String
  status : WebhookStatus
  response_code : Option Nat
  response_body : Option String
  error_message : Option String
  attempt_count : Nat
  next_retry_at : Option Nat
  created_at : Nat
  delivered_at : Option Nat
deriving Repr, DecidableEq

/-- Outcome of the single `httpx` POST inside `deliver_webhook`: an HTTP
response with its status code and body text, `httpx.TimeoutException`,
`httpx.RequestError`, or any other exception. -/
inductive HttpResult where
  | response (status_code : Nat) (text : String)
  | timeout
  | requestError (msg : String)
  | otherError (msg : String)
deriving Repr, DecidableEq

/-- The outbound HTTP POST issued by `deliver_webhook`: destination, body and
the headers the source sets (the header dict is modelled by named fields). -/
structure HttpRequest where
  url : String
  body : String
  content_type : String
  signature_header : String
  event_header : String
  timestamp_header : String
  delivery_id_header : String
deriving Repr, DecidableEq

/-! ## The Delivery Engine (`services/webhook.py`) -/

/-- Textual rendering of a UTC instant (`datetime.isoformat()`).  The claims
never inspect the format, only that the same rendering is used for the
envelope and the timestamp header, so the instant is rendered by its
decimal numeral. -/
def utc_isoformat (t : Nat) : String := toString t

/-- The JSON envelope `{event, timestamp, data}` built by `deliver_webhook`
(field order as in the source). -/
def webhookEnvelope (event_type : String) (tSend : Nat) (data : Json) : Json :=
  .obj [("event", .str event_type), ("timestamp", .str (utc_isoformat tSend)), ("data", data)]

/-- Embedding of `should_trigger_webhook(webhook, event_type)`. -/
def should_trigger_webhook (w : Webhook) (event_type : String) : Bool :=
  if !w.is_active then false
  else w.events.contains "all" || w.events.contains event_type

/-- The mutation of the pending delivery record performed by the
`try`/`except` classification block of `deliver_webhook` (lines 160–199). -/
def applyDeliveryOutcome (d : WebhookDelivery) (result : HttpResult) (tDone : Nat) :
    WebhookDelivery :=
  match result with
  | .response code text =>
      let d := { d with
        response_code := some code,
        response_body := if text = "" then none else some (strTake text 1000) }
      if 200 ≤ code ∧ code < 300 then
        { d with status := .success, delivered_at := some tDone }
      else
        { d with
          status := .failed,
          error_message := some ("HTTP " ++ toString code),
          next_retry_at := some (tDone + 300) }
  | .timeout =>
      { d with
        status := .failed,
        error_message := some "Request timed out",
        next_retry_at := some (tDone + 300) }
  | .requestError msg =>
      { d with
        status := .failed,
        error_message := some (strTake msg 500),
        next_retry_at := some (tDone + 300) }
  | .otherError msg =>
      { d with
        status := .failed,
        error_message := some ("Unexpected error: " ++ strTake msg 500) }

/-- Embedding of `deliver_webhook(db, webhook, event_type, data)`.

`tSend` is the `datetime.utcnow()` read at line 137 (envelope timestamp and
record creation), `tDone` the read in the outcome classification;
`delivery_uuid` is the generated `WebhookDelivery.uuid`; `result` is the
outcome of the POST.  Returns the persisted delivery record together with
the request that was sent. -/
def deliver_webhook (w : Webhook) (event_type : String) (data : Json)
    (tSend tDone : Nat) (delivery_uuid : String) (result : HttpResult) :
    WebhookDelivery × HttpRequest :=
  let payload := jsonDumps (webhookEnvelope event_type tSend data)
  let signature := generate_signature payload w.secret
  let pending : WebhookDelivery :=
    { uuid := delivery_uuid, webhook_id := w.id, event_type := event_type,
      payload := payload, status := .pending, response_code := none,
      response_body := none, error_message := none, attempt_count := 1,
      next_retry_at := none, created_at := tSend, delivered_at := none }
  let req : HttpRequest :=
    { url := w.url, body := payload, content_type := "application/json",
      signature_header := signature, event_header := event_type,
      timestamp_header := utc_isoformat tSend, delivery_id_header := delivery_uuid }
  (applyDeliveryOutcome pending result tDone, req)

/-- Result dict of `test_webhook`. -/
structure WebhookTestResult where
  success : Bool
  response_code : Option Nat
  response_body : Option String
  error_message : Option String
deriving Repr, DecidableEq

/-- Embedding of `test_webhook(db, webhook)`: a `test` event pushed through
`deliver_webhook`.  Returns the response dict together with the delivery
record that was persisted. -/
def test_webhook (w : Webhook) (tSend tDone : Nat) (delivery_uuid : String)
    (result : HttpResult) : WebhookTestResult × WebhookDelivery :=
  let test_data : Json := .obj
    [("test", .bool true),
     ("message", .str "This is a test webhook delivery from Eigensparse"),
     ("webhook_name", .str w.name),
     ("webhook_uuid", .str w.uuid)]
  let delivery := (deliver_webhook w "test" test_data tSend tDone delivery_uuid result).1
  ({ success := delivery.status == .success,
     response_code := delivery.response_code,
     response_body := delivery.response_body,
     error_message := delivery.error_message }, delivery)

/-- Embedding of `trigger_consent_webhooks(db, fiduciary_id, event_type,
consent_data)`.  The database is the list of webhook rows; the query
`filter(fiduciary_id == ..., is_active == True)` becomes a list filter, and
the `for` loop accumulates one delivery per matching webhook.  `duuidOf`
and `resp` supply the generated delivery uuid and the network outcome for
each webhook's POST. -/
def trigger_consent_webhooks (db : List Webhook) (fiduciary_id : Nat)
    (event_type : String) (consent_data : Json) (tSend tDone : Nat)
    (duuidOf : Webhook → String) (resp : Webhook → HttpResult) :
    List WebhookDelivery :=
  let webhooks := db.filter (fun w => w.fiduciary_id == fiduciary_id && w.is_active)
  webhooks.foldl (fun deliveries w =>
    if should_trigger_webhook w event_type then
      deliveries ++ [(deliver_webhook w event_type consent_data tSend tDone
        (duuidOf w) (resp w)).1]
    else deliveries) []

/-! ## The Webhook Registry (`services/webhook.py`, CRUD) -/

/-- Embedding of `create_webhook(db, fiduciary_id, name, url, events)`:
construct the row with a fresh secret and `is_active=True`, add and commit.
The generated id, uuid and secret (`generate_webhook_secret()`) are passed
in, since they come from random sources.  Returns the new database state and
the stored row. -/
def create_webhook (db : List Webhook) (fiduciary_id : Nat)
    (name url : String) (events : List String)
    (wid : Nat) (wuuid secret : String) : List Webhook × Webhook :=
  let w : Webhook :=
    { id := wid, uuid := wuuid, fiduciary_id := fiduciary_id, name := name,
      url := url, secret := secret, events := events, is_active := true }
  (db ++ [w], w)

/-- Embedding of `update_webhook(db, webhook, name, url, events, is_active)`:
each provided field overwrites the row in place, omitted fields are left
unchanged (the four `if ... is not None` blocks). -/
def update_webhook (w : Webhook) (name : Option String) (url : Option String)
    (events : Option (List String)) (is_active : Option Bool) : Webhook :=
  let w := match name with | some n => { w with name := n } | none => w
  let w := match url with | some u => { w with url := u } | none => w
  let w := match events with | some e => { w with events := e } | none => w
  let w := match is_active with | some a => { w with is_active := a } | none => w
  w

/-- Embedding of `delete_webhook(db, webhook)`: remove the row. -/
def delete_webhook (db : List Webhook) (w : Webhook) : List Webhook :=
  db.filter (fun x => x.id != w.id)

/-- Embedding of `get_fiduciary_webhooks(db, fiduciary_id)`: all webhook rows
of the owner.  The source also orders by `created_at` descending; ordering
is irrelevant to the claims, which only use the count. -/
def get_fiduciary_webhooks (db : List Webhook) (fiduciary_id : Nat) : List Webhook :=
  db.filter (fun w => w.fiduciary_id == fiduciary_id)

/-- Embedding of `get_webhook_by_uuid(db, uuid, fiduciary_id)`: the first row
matching both the uuid and the owner id. -/
def get_webhook_by_uuid (db : List Webhook) (uuid : String) (fiduciary_id : Nat) :
    Option Webhook :=
  (db.filter (fun w => w.uuid == uuid && w.fiduciary_id == fiduciary_id)).head?

/-! ## URL Safety Validator (`schemas/webhook.py`, lines 13–53) -/

/-- A URL together with its `urlparse` hostname (Python's
`urlparse(url).hostname`: lowercased host, `None` when absent). -/
structure ParsedUrl where
  raw : String
  hostname : Option String
deriving Repr, DecidableEq

/-- Model of Python's `c in s` membership test on strings. -/
def strContainsChar (s : String) (c : Char) : Bool :=
  s.data.contains c

/-- Model of Python's `str.lower()`: lowercase each character. -/
def strToLower (s : String) : String :=
  String.mk (s.data.map Char.toLower)

/-- Model of Python's `hostname.replace('-', '')`: drop every hyphen. -/
def stripHyphens (s : String) : String :=
  String.mk (s.data.filter (fun c => c != '-'))

/-- Model of Python's `str.isalnum()` for the hostname check (the hostnames
the validator sees are ASCII). -/
def pyIsAlnum (s : String) : Bool :=
  !s.data.isEmpty && s.data.all Char.isAlphanum

/-- Split a character list at every dot (the field separation performed by
the `ipaddress` module on a candidate IPv4 literal). -/
def splitDots (l : List Char) : List (List Char) :=
  l.foldr
    (fun c acc =>
      if c = '.' then [] :: acc
      else match acc with
        | [] => [[c]]
        | a :: rest => (c :: a) :: rest)
    [[]]

/-- Strict parse of a dotted-quad IPv4 octet, mirroring the `ipaddress`
module: one to three digits, no leading zeros, value at most 255. -/
def parseOctet (l : List Char) : Option Nat :=
  if l.isEmpty || l.length > 3 then none
  else if !l.all Char.isDigit then none
  else if l.length > 1 && l.headD '0' = '0' then none
  else
    let n := l.foldl (fun acc c => 10 * acc + (c.toNat - 48)) 0
    if n ≤ 255 then some n else none

/-- Parse of a dotted-quad IPv4 address (`ipaddress.ip_address` for IPv4). -/
def parseIPv4 (h : String) : Option (Nat × Nat × Nat × Nat) :=
  match splitDots h.data with
  | [a, b, c, d] =>
      match parseOctet a, parseOctet b, parseOctet c, parseOctet d with
      | some pa, some pb, some pc, some pd => some (pa, pb, pc, pd)
      | _, _, _, _ => none
  | _ => none

/-- The `ipaddress` predicate `is_private` for IPv4 (union of the
iana-ipv4-special-registry ranges used by Python). -/
def ipv4IsPrivate : Nat × Nat × Nat × Nat → Bool
  | (a, b, c, _) =>
    a == 0 || a == 10 || a == 127 || (a == 169 && b == 254) ||
    (a == 172 && 16 ≤ b && b ≤ 31) || (a == 192 && b == 168) ||
    (a == 192 && b == 0 && c == 0) || (a == 192 && b == 0 && c == 2) ||
    (a == 198 && (b == 18 || b == 19)) || (a == 198 && b == 51 && c == 100) ||
    (a == 203 && b == 0 && c == 113) || a ≥ 240

/-- The `ipaddress` predicate `is_loopback` for IPv4 (`127.0.0.0/8`). -/
def ipv4IsLoopback : Nat × Nat × Nat × Nat → Bool
  | (a, _, _, _) => a == 127

/-- The `ipaddress` predicate `is_link_local` for IPv4 (`169.254.0.0/16`). -/
def ipv4IsLinkLocal : Nat × Nat × Nat × Nat → Bool
  | (a, b, _, _) => a == 169 && b == 254

/-- The `ipaddress` predicate `is_reserved` for IPv4 (`240.0.0.0/4`). -/
def ipv4IsReserved : Nat × Nat × Nat × Nat → Bool
  | (a, _, _, _) => a ≥ 240

/-- The `blocked_patterns` regex list, as decidable string tests: the three
suffix patterns and the four anchored prefix patterns (`re.search` with
`re.IGNORECASE`; the hostname is lowercased before testing, which is what
the case-insensitive flag amounts to on these patterns). -/
def matchesBlockedPatterns (h : String) : Bool :=
  let hl := (strToLower h).data
  ".local".data.isSuffixOf hl || ".internal".data.isSuffixOf hl ||
  ".localhost".data.isSuffixOf hl ||
  "192.168.".data.isPrefixOf hl || "10.".data.isPrefixOf hl ||
  (List.range 16).any (fun i => ("172." ++ toString (16 + i) ++ ".").data.isPrefixOf hl) ||
  "169.254.".data.isPrefixOf hl

/-- Embedding of `is_private_or_internal_url(url)` on the parsed hostname.

A colon can reach the `ipaddress.ip_address` call only through a bracketed
IPv6 literal host; the model conservatively classifies every such hostname
as blocked (the source blocks exactly those in private/loopback/link-local/
reserved IPv6 ranges).  No theorem below evaluates this branch: every
hostname a claim touches is colon-free. -/
def is_private_or_internal_url (hostname : Option String) : Bool :=
  match hostname with
  | none => true
  | some h =>
    if h.data.isEmpty then true
    else if strToLower h = "localhost" || strToLower h = "127.0.0.1" ||
            strToLower h = "::1" || strToLower h = "0.0.0.0" then true
    else if !strContainsChar h '.' && !pyIsAlnum (stripHyphens h) then true
    else if strContainsChar h ':' then true
    else match parseIPv4 h with
      | some ip =>
          ipv4IsPrivate ip || ipv4IsLoopback ip || ipv4IsLinkLocal ip || ipv4IsReserved ip
      | none => matchesBlockedPatterns h

/-! ## Schema validation (`schemas/webhook.py`, pydantic models) -/

/-- Embedding of the `WebhookCreate` field validators, run in field order
(`name`, `url`, `events`); the first failing validator's message is
returned. -/
def webhookCreateValidate (name : String) (url : ParsedUrl) (events : List String) :
    Except String Unit :=
  if name.length < 3 then .error "Name must be at least 3 characters"
  else if name.length > 255 then .error "Name must not exceed 255 characters"
  else if is_private_or_internal_url url.hostname then
    .error "Webhook URL cannot point to private or internal networks"
  else if events.any (fun e => !webhookEventValues.contains e) then
    .error "Invalid event type"
  else .ok ()

/-- Embedding of the `WebhookUpdate` field validators.  The schema declares
validators only for `url` and `events` (each passing `None` through); it has
no `name` validator. -/
def webhookUpdateValidate (name : Option String) (url : Option ParsedUrl)
    (events : Option (List String)) (is_active : Option Bool) : Except String Unit :=
  match url with
  | some u =>
      if is_private_or_internal_url u.hostname then
        .error "Webhook URL cannot point to private or internal networks"
      else webhookUpdateValidateEvents name events is_active
  | none => webhookUpdateValidateEvents name events is_active
where
  webhookUpdateValidateEvents (_name : Option String)
      (events : Option (List String)) (_is_active : Option Bool) : Except String Unit :=
    match events with
    | some es =>
        if es.any (fun e => !webhookEventValues.contains e) then .error "Invalid event type"
        else .ok ()
    | none => .ok ()

/-! ## Router endpoints (`routers/webhooks.py`) -/

/-- An HTTP error response (`HTTPException`): status code and detail. -/
structure ApiError where
  status_code : Nat
  detail : String
deriving Repr, DecidableEq

/-- Embedding of the `POST /api/webhooks` handler `create_new_webhook` (after
schema validation): reject with 400 when the owner already has 10 or more
webhooks, otherwise persist a new row.  Returns the outcome and the
resulting database state (unchanged on rejection — no partial state). -/
def create_new_webhook (db : List Webhook) (fiduciary_id : Nat)
    (name url : String) (events : List String)
    (wid : Nat) (wuuid secret : String) :
    Except ApiError Webhook × List Webhook :=
  if (get_fiduciary_webhooks db fiduciary_id).length ≥ 10 then
    (.error ⟨400, "Maximum webhook limit reached (10)"⟩, db)
  else
    let (db', w) := create_webhook db fiduciary_id name url events wid wuuid secret
    (.ok w, db')

/-- Embedding of the `GET /api/webhooks/{uuid}` handler `get_webhook`:
owner-scoped lookup, 404 on `None`. -/
def get_webhook_route (db : List Webhook) (webhook_uuid : String)
    (fiduciary_id : Nat) : Except ApiError Webhook :=
  match get_webhook_by_uuid db webhook_uuid fiduciary_id with
  | none => .error ⟨404, "Webhook not found"⟩
  | some w => .ok w

/-! ## Helper lemmas about the digest shape -/

/-- One compression step always returns eight words. -/
theorem sha256Compress_length (hs block : List Nat) :
    (sha256Compress hs block).length = 8 := rfl

/-- Folding compression steps over any block list preserves the
eight-word shape. -/
theorem foldl_sha256Compress_length (blocks : List (List Nat)) (hs : List Nat)
    (h : hs.length = 8) : (blocks.foldl sha256Compress hs).length = 8 := by
  induction blocks generalizing hs with
  | nil => simpa using h
  | cons b bs ih => simpa using ih (sha256Compress hs b) (sha256Compress_length hs b)

/-- The SHA-256 word digest always has eight words. -/
theorem sha256Words_length (msg : List Nat) : (sha256Words msg).length = 8 :=
  foldl_sha256Compress_length _ _ rfl

/-- Word serialization produces four bytes per word. -/
theorem wordsToBytes_length (ws : List Nat) :
    (wordsToBytes ws).length = 4 * ws.length := by
  induction ws with
  | nil => rfl
  | cons w ws ih => simp [wordsToBytes] at ih ⊢; omega

/-- Every serialized byte is below 256. -/
theorem wordsToBytes_lt (ws : List Nat) : ∀ x ∈ wordsToBytes ws, x < 256 := by
  induction ws with
  | nil => intro x hx; simp [wordsToBytes] at hx
  | cons w ws ih =>
      intro x hx
      simp only [wordsToBytes, List.foldr_cons, List.mem_cons] at hx
      rcases hx with h | h | h | h | h
      all_goals first
        | (subst h; exact Nat.mod_lt _ (by omega))
        | (exact ih x h)

/-- The SHA-256 byte digest has 32 bytes. -/
theorem sha256Bytes_length (msg : List Nat) : (sha256Bytes msg).length = 32 := by
  simp [sha256Bytes, wordsToBytes_length, sha256Words_length]

/-- The HMAC-SHA256 digest has 32 bytes, all below 256. -/
theorem hmacSha256_shape (key msg : List Nat) :
    (hmacSha256 key msg).length = 32 ∧ ∀ x ∈ hmacSha256 key msg, x < 256 :=
  ⟨sha256Bytes_length _, wordsToBytes_lt _⟩

/-- Reading any position of a byte list whose members are below 256 with
default 0 yields a value below 256. -/
theorem getD_lt_256 (l : List Nat) (h : ∀ x ∈ l, x < 256) (i : Nat) :
    l.getD i 0 < 256 := by
  induction l generalizing i with
  | nil => simp [List.getD]
  | cons a t ih =>
      cases i with
      | zero => exact h a (by simp)
      | succ j => exact ih (fun x hx => h x (by simp [hx])) j

/-! ## C3: signing and verification -/

/-- Secrets used for the collision argument: the string of `n` copies
of `a`. -/
def secretOfNat (n : Nat) : String := String.mk (List.replicate n 'a')

/-- Distinct indices give distinct secrets. -/
theorem secretOfNat_injective : Function.Injective secretOfNat := by
  intro n m h
  have := congrArg String.length h
  simpa [secretOfNat] using this

/-- The HMAC digest of a fixed payload under the `n`-th secret, packaged as a
function into a finite type. -/
def digestVec (payload : String) (n : Nat) : Fin 32 → Fin 256 := fun i =>
  ⟨(hmacSha256 (strBytes (secretOfNat n)) (strBytes payload)).getD i.val 0,
   getD_lt_256 _ (hmacSha256_shape _ _).2 _⟩

/-- Equal digest vectors force equal digest byte lists. -/
theorem digestVec_eq_imp (payload : String) {n m : Nat}
    (h : digestVec payload n = digestVec payload m) :
    hmacSha256 (strBytes (secretOfNat n)) (strBytes payload) =
      hmacSha256 (strBytes (secretOfNat m)) (strBytes payload) := by
  apply List.ext_getElem
  · rw [(hmacSha256_shape _ _).1, (hmacSha256_shape _ _).1]
  · intro i h1 h2
    have hlen : i < 32 := by
      have := (hmacSha256_shape (strBytes (secretOfNat n)) (strBytes payload)).1
      omega
    have := congrFun h ⟨i, hlen⟩
    have hv := congrArg Fin.val this
    simpa [digestVec, List.getD_eq_getElem?_getD, List.getElem?_eq_getElem, h1, h2] using hv

/-- C3 (counterexample): it is not true that verification returns `false` for
every wrong secret — the digest space is finite (32 bytes) while the secret
space is not, so two distinct secrets collide on some payload, and the
signature produced under one verifies under the other. -/
theorem verify_signature_wrong_secret_collision :
    ∃ s₁ s₂ : String, s₁ ≠ s₂ ∧
      verify_signature "x" (generate_signature "x" s₁) s₂ = true := by
  obtain ⟨n, m, hnm, heq⟩ := Finite.exists_ne_map_eq_of_infinite (digestVec "x")
  refine ⟨secretOfNat n, secretOfNat m, fun h => hnm (secretOfNat_injective h), ?_⟩
  have hbytes := digestVec_eq_imp "x" heq
  have hsig : generate_signature "x" (secretOfNat m) = generate_signature "x" (secretOfNat n) := by
    simp [generate_signature, hbytes]
  simp [verify_signature, hsig]

/-- C3 (amended): verifying the signature produced by signing a payload with
a secret returns `true`, and in general verification succeeds exactly when
the presented digest equals the recomputed HMAC-SHA256 hex digest of the
payload under the secret (so any candidate with a different digest is
rejected; "different payload or secret implies rejection" holds only up to
hash collisions, which exist by the counterexample above). -/
theorem verify_signature_roundtrip_and_iff (payload secret digest : String) :
    verify_signature payload (generate_signature payload secret) secret = true ∧
      (verify_signature payload digest secret = true ↔
        digest = generate_signature payload secret) := by
  constructor
  · simp [verify_signature]
  · rw [verify_signature, beq_iff_eq]
    exact eq_comm

/-! ## Helper lemmas about the outcome classification -/

/-- Outcome classification never rewrites the payload. -/
theorem applyDeliveryOutcome_payload (d : WebhookDelivery) (r : HttpResult) (t : Nat) :
    (applyDeliveryOutcome d r t).payload = d.payload := by
  cases r <;> first
    | rfl
    | (simp only [applyDeliveryOutcome]; split <;> rfl)

/-- Outcome classification never rewrites the event type. -/
theorem applyDeliveryOutcome_event_type (d : WebhookDelivery) (r : HttpResult) (t : Nat) :
    (applyDeliveryOutcome d r t).event_type = d.event_type := by
  cases r <;> first
    | rfl
    | (simp only [applyDeliveryOutcome]; split <;> rfl)

/-- Outcome classification never rewrites the attempt count. -/
theorem applyDeliveryOutcome_attempt_count (d : WebhookDelivery) (r : HttpResult) (t : Nat) :
    (applyDeliveryOutcome d r t).attempt_count = d.attempt_count := by
  cases r <;> first
    | rfl
    | (simp only [applyDeliveryOutcome]; split <;> rfl)

/-! ## C4: the signature is over the transmitted bytes -/

/-- C4: for every delivery, the bytes POSTed as the HTTP body are exactly the
payload persisted on the delivery record, the signature header is the
HMAC-SHA256 of exactly those bytes under the webhook's secret, and those
bytes are the one serialization of the `{event, timestamp, data}` envelope —
there is no re-serialization between signing and sending. -/
theorem deliver_webhook_signs_transmitted_bytes
    (w : Webhook) (event_type : String) (data : Json) (tSend tDone : Nat)
    (duuid : String) (result : HttpResult) :
    (deliver_webhook w event_type data tSend tDone duuid result).2.body =
      (deliver_webhook w event_type data tSend tDone duuid result).1.payload ∧
    (deliver_webhook w event_type data tSend tDone duuid result).2.signature_header =
      generate_signature
        (deliver_webhook w event_type data tSend tDone duuid result).2.body w.secret ∧
    (deliver_webhook w event_type data tSend tDone duuid result).2.body =
      jsonDumps (webhookEnvelope event_type tSend data) := by
  refine ⟨?_, rfl, rfl⟩
  simp [deliver_webhook, applyDeliveryOutcome_payload]

/-! ## C5: classification of a 2xx response -/

/-- C5: a delivery whose POST returns a 2xx code is marked `success` with the
response code recorded, the response body truncated to at most 1000
characters (absent when empty), the delivered timestamp set and no retry
scheduled; and across all outcomes `delivered_at` is set iff the status is
`success`. -/
theorem deliver_webhook_success_classification
    (w : Webhook) (event_type : String) (data : Json) (tSend tDone : Nat)
    (duuid : String) (code : Nat) (text : String)
    (h1 : 200 ≤ code) (h2 : code < 300) :
    ((deliver_webhook w event_type data tSend tDone duuid (.response code text)).1.status
        = .success ∧
     (deliver_webhook w event_type data tSend tDone duuid (.response code text)).1.response_code
        = some code ∧
     (deliver_webhook w event_type data tSend tDone duuid (.response code text)).1.response_body
        = (if text = "" then none else some (strTake text 1000)) ∧
     (∀ s, (deliver_webhook w event_type data tSend tDone duuid
        (.response code text)).1.response_body = some s → s.length ≤ 1000) ∧
     (deliver_webhook w event_type data tSend tDone duuid (.response code text)).1.delivered_at
        = some tDone ∧
     (deliver_webhook w event_type data tSend tDone duuid (.response code text)).1.next_retry_at
        = none) ∧
    (∀ r : HttpResult,
      (deliver_webhook w event_type data tSend tDone duuid r).1.delivered_at ≠ none ↔
        (deliver_webhook w event_type data tSend tDone duuid r).1.status = .success) := by
  constructor
  · refine ⟨?_, ?_, ?_, ?_, ?_, ?_⟩ <;>
      simp only [deliver_webhook, applyDeliveryOutcome, h1, h2, and_self, if_true,
        if_pos (And.intro h1 h2)]
    · intro s hs
      split at hs
      · exact absurd hs (by simp)
      · cases hs
        simp only [strTake, String.length_mk]
        exact List.length_take_le 1000 text.data
  · intro r
    cases r <;> simp only [deliver_webhook, applyDeliveryOutcome]
    · split
      · simp
      · simp
    all_goals simp

/-- C5 (witness): a concrete delivery answered with HTTP 204. -/
theorem deliver_webhook_success_classification_witness :
    (deliver_webhook ⟨1, "w-uuid", 7, "Main endpoint", "https://example.com/hook",
        "whsec_k", ["all"], true⟩ "consent.granted" (.obj [("consent_id", .str "c1")])
        100 101 "d-uuid" (.response 204 "ok")).1.status = .success ∧
    (deliver_webhook ⟨1, "w-uuid", 7, "Main endpoint", "https://example.com/hook",
        "whsec_k", ["all"], true⟩ "consent.granted" (.obj [("consent_id", .str "c1")])
        100 101 "d-uuid" (.response 204 "ok")).1.delivered_at = some 101 ∧
    (deliver_webhook ⟨1, "w-uuid", 7, "Main endpoint", "https://example.com/hook",
        "whsec_k", ["all"], true⟩ "consent.granted" (.obj [("consent_id", .str "c1")])
        100 101 "d-uuid" (.response 204 "ok")).1.next_retry_at = none := by
  have h := deliver_webhook_success_classification
    ⟨1, "w-uuid", 7, "Main endpoint", "https://example.com/hook", "whsec_k", ["all"], true⟩
    "consent.granted" (.obj [("consent_id", .str "c1")]) 100 101 "d-uuid" 204 "ok"
    (by decide) (by decide)
  exact ⟨h.1.1, h.1.2.2.2.2.1, h.1.2.2.2.2.2⟩

/-! ## C1: retry scheduling as the code actually performs it -/

/-- C1: what `deliver_webhook` actually does on failure.  A first attempt
answered with HTTP 500 is marked `failed` with `attempt_count = 1` and
`next_retry_at` scheduled a flat 300 seconds (5 minutes) ahead — not the
60 seconds the 1/5/15-minute schedule prescribes for attempt 1 — and the
generic-exception path leaves a `failed` record with `attempt_count = 1 < 3`
and no `next_retry_at` at all.  The code never consults
`WEBHOOK_RETRY_DELAYS = [60, 300, 900]` or `WEBHOOK_MAX_RETRIES = 3`
declared in `app/constants.py`. -/
theorem deliver_webhook_flat_retry_schedule
    (w : Webhook) (event_type : String) (data : Json) (tSend tDone : Nat)
    (duuid text msg : String) :
    ((deliver_webhook w event_type data tSend tDone duuid (.response 500 text)).1.status
        = .failed ∧
     (deliver_webhook w event_type data tSend tDone duuid (.response 500 text)).1.attempt_count
        = 1 ∧
     (deliver_webhook w event_type data tSend tDone duuid (.response 500 text)).1.next_retry_at
        = some (tDone + 300)) ∧
    ((deliver_webhook w event_type data tSend tDone duuid (.otherError msg)).1.status
        = .failed ∧
     (deliver_webhook w event_type data tSend tDone duuid (.otherError msg)).1.attempt_count
        = 1 ∧
     (deliver_webhook w event_type data tSend tDone duuid (.otherError msg)).1.next_retry_at
        = none) := by
  refine ⟨⟨?_, ?_, ?_⟩, ?_, ?_, ?_⟩ <;>
    simp [deliver_webhook, applyDeliveryOutcome]

/-! ## C10: the operator test is unconditional -/

/-- C10: `test_webhook` performs a real delivery of a `test` event without
consulting `is_active` or the subscribed event set (its result is unchanged
under any values of those two fields), and the persisted delivery record
carries event type `test`, a value outside the subscribable event
vocabulary. -/
theorem test_webhook_unconditional
    (w : Webhook) (tSend tDone : Nat) (duuid : String) (r : HttpResult)
    (b : Bool) (evs : List String) :
    test_webhook { w with is_active := b, events := evs } tSend tDone duuid r
      = test_webhook w tSend tDone duuid r ∧
    (test_webhook w tSend tDone duuid r).2.event_type = "test" ∧
    "test" ∉ webhookEventValues := by
  refine ⟨rfl, ?_, by decide⟩
  simp [test_webhook, deliver_webhook, applyDeliveryOutcome_event_type]

/-! ## C9: trigger fan-out -/

/-- Accumulating a conditional append over a list is the map of the filtered
list (the shape of the `for` loop in `trigger_consent_webhooks`). -/
theorem foldl_append_filter {α β : Type} (f : α → β) (p : α → Bool)
    (l : List α) (acc : List β) :
    l.foldl (fun ds w => if p w then ds ++ [f w] else ds) acc =
      acc ++ (l.filter p).map f := by
  induction l generalizing acc with
  | nil => simp
  | cons w t ih => by_cases h : p w <;> simp [h, ih]

/-- C9: triggering an event delivers exactly to the owner's webhooks that are
active and subscribed to the event type or to the `all` wildcard, in
database order; in particular, when no webhook matches, the trigger returns
the empty list — zero delivery records, no error. -/
theorem trigger_consent_webhooks_matching
    (db : List Webhook) (fiduciary_id : Nat) (event_type : String) (data : Json)
    (tSend tDone : Nat) (duuidOf : Webhook → String) (resp : Webhook → HttpResult) :
    trigger_consent_webhooks db fiduciary_id event_type data tSend tDone duuidOf resp =
      (db.filter (fun w => w.fiduciary_id == fiduciary_id && w.is_active &&
          (w.events.contains "all" || w.events.contains event_type))).map
        (fun w => (deliver_webhook w event_type data tSend tDone (duuidOf w) (resp w)).1) ∧
    ((∀ w ∈ db, ¬(w.fiduciary_id = fiduciary_id ∧ w.is_active = true ∧
        ("all" ∈ w.events ∨ event_type ∈ w.events))) →
      trigger_consent_webhooks db fiduciary_id event_type data tSend tDone duuidOf resp
        = []) := by
  have hmain : trigger_consent_webhooks db fiduciary_id event_type data tSend tDone
      duuidOf resp =
      (db.filter (fun w => w.fiduciary_id == fiduciary_id && w.is_active &&
          (w.events.contains "all" || w.events.contains event_type))).map
        (fun w => (deliver_webhook w event_type data tSend tDone (duuidOf w) (resp w)).1) := by
    unfold trigger_consent_webhooks
    rw [foldl_append_filter, List.nil_append, List.filter_filter]
    congr 1
    apply List.filter_congr
    intro w _
    cases h : w.is_active <;>
      simp [should_trigger_webhook, h, Bool.and_comm]
  refine ⟨hmain, fun h => ?_⟩
  rw [hmain]
  have hnil : db.filter (fun w => w.fiduciary_id == fiduciary_id && w.is_active &&
      (w.events.contains "all" || w.events.contains event_type)) = [] := by
    rw [List.filter_eq_nil_iff]
    intro w hw hp
    apply h w hw
    simp only [Bool.and_eq_true, Bool.or_eq_true, beq_iff_eq, List.contains,
      List.elem_iff] at hp
    exact ⟨hp.1.1, hp.1.2, hp.2⟩
  rw [hnil]
  rfl

/-- C9 (witness): a database whose only webhooks are inactive or subscribed
to other events yields an empty delivery list. -/
theorem trigger_consent_webhooks_matching_witness :
    trigger_consent_webhooks
      [⟨1, "u1", 7, "inactive hook", "https://a.example/h", "s1", ["all"], false⟩,
       ⟨2, "u2", 7, "revoked only", "https://b.example/h", "s2", ["consent.revoked"], true⟩,
       ⟨3, "u3", 8, "other owner", "https://c.example/h", "s3", ["all"], true⟩]
      7 "consent.granted" .null 0 1 (fun _ => "d") (fun _ => .timeout) = [] := by
  exact (trigger_consent_webhooks_matching _ 7 "consent.granted" .null 0 1
    (fun _ => "d") (fun _ => .timeout)).2 (by decide)

/-! ## C7: owner-scoped lookup -/

/-- The head of a filtered list satisfies the filter and belongs to the
original list. -/
theorem head_filter_mem {α : Type} (p : α → Bool) (l : List α) (a : α)
    (h : (l.filter p).head? = some a) : p a = true ∧ a ∈ l := by
  induction l with
  | nil => simp [List.filter] at h
  | cons x t ih =>
      by_cases hx : p x
      · rw [List.filter_cons_of_pos hx] at h
        simp only [List.head?_cons, Option.some.injEq] at h
        subst h
        exact ⟨hx, List.mem_cons_self _ _⟩
      · rw [List.filter_cons_of_neg hx] at h
        obtain ⟨hp, hm⟩ := ih h
        exact ⟨hp, List.mem_cons_of_mem _ hm⟩

/-- C7: every lookup is scoped by the owner id — a returned subscription
always belongs to the requesting fiduciary and carries the requested uuid —
and whenever no row matches both the uuid and the owner (whether the uuid
belongs to a different owner or does not exist at all), the route answers
with the identical `404 Webhook not found` outcome. -/
theorem get_webhook_owner_scoped (db : List Webhook) (webhook_uuid : String)
    (fiduciary_id : Nat) :
    (∀ w, get_webhook_by_uuid db webhook_uuid fiduciary_id = some w →
      w.fiduciary_id = fiduciary_id ∧ w.uuid = webhook_uuid) ∧
    ((∀ w ∈ db, ¬(w.uuid = webhook_uuid ∧ w.fiduciary_id = fiduciary_id)) →
      get_webhook_route db webhook_uuid fiduciary_id =
        .error ⟨404, "Webhook not found"⟩) := by
  constructor
  · intro w hw
    obtain ⟨hp, _⟩ := head_filter_mem _ _ _ hw
    simp only [Bool.and_eq_true, beq_iff_eq] at hp
    exact ⟨hp.2, hp.1⟩
  · intro h
    have hnil : db.filter
        (fun w => w.uuid == webhook_uuid && w.fiduciary_id == fiduciary_id) = [] := by
      rw [List.filter_eq_nil_iff]
      intro w hw hp
      simp only [Bool.and_eq_true, beq_iff_eq] at hp
      exact h w hw hp
    simp [get_webhook_route, get_webhook_by_uuid, hnil]

/-- C7 (witness): a caller with fiduciary id 7 probing the uuid of another
owner's webhook receives the same `404` as for a nonexistent uuid. -/
theorem get_webhook_owner_scoped_witness :
    get_webhook_route
      [⟨1, "u1", 9, "other tenant", "https://a.example/h", "s1", ["all"], true⟩]
      "u1" 7 = .error ⟨404, "Webhook not found"⟩ ∧
    get_webhook_route
      [⟨1, "u1", 9, "other tenant", "https://a.example/h", "s1", ["all"], true⟩]
      "no-such-uuid" 7 = .error ⟨404, "Webhook not found"⟩ := by
  exact ⟨(get_webhook_owner_scoped _ "u1" 7).2 (by decide),
    (get_webhook_owner_scoped _ "no-such-uuid" 7).2 (by decide)⟩

/-! ## C6: the per-owner registration cap -/

/-- Filtering a list strictly shrinks it when some member fails the
predicate. -/
theorem length_filter_lt_of_mem_not {α : Type} (p : α → Bool) (l : List α) (a : α)
    (ha : a ∈ l) (hpa : p a = false) : (l.filter p).length < l.length := by
  induction l with
  | nil => cases ha
  | cons x t ih =>
      rcases List.mem_cons.mp ha with rfl | hat
      · rw [List.filter_cons_of_neg (by simp [hpa])]
        have := List.length_filter_le p t
        simp only [List.length_cons]
        omega
      · by_cases hx : p x
        · rw [List.filter_cons_of_pos hx]
          simp only [List.length_cons]
          exact Nat.succ_lt_succ (ih hat)
        · rw [List.filter_cons_of_neg hx]
          simp only [List.length_cons]
          exact Nat.lt_trans (ih hat) (Nat.lt_succ_self _)

/-- C6: an owner already holding at least 10 webhooks has any further
creation rejected with the 400 `Maximum webhook limit reached (10)` error
and the database unchanged (no partial state); and for an owner at exactly
the cap, deleting one of their webhooks makes a subsequent creation
succeed. -/
theorem create_new_webhook_limit (db : List Webhook) (fiduciary_id : Nat)
    (name url : String) (events : List String) (wid : Nat) (wuuid secret : String) :
    ((get_fiduciary_webhooks db fiduciary_id).length ≥ 10 →
      create_new_webhook db fiduciary_id name url events wid wuuid secret =
        (.error ⟨400, "Maximum webhook limit reached (10)"⟩, db)) ∧
    (∀ w ∈ db, w.fiduciary_id = fiduciary_id →
      (get_fiduciary_webhooks db fiduciary_id).length = 10 →
      (create_new_webhook (delete_webhook db w) fiduciary_id name url events
          wid wuuid secret).1 =
        .ok { id := wid, uuid := wuuid, fiduciary_id := fiduciary_id, name := name,
              url := url, secret := secret, events := events, is_active := true }) := by
  constructor
  · intro h
    unfold create_new_webhook
    rw [if_pos h]
  · intro w hw hfid hlen
    have hlt : (get_fiduciary_webhooks (delete_webhook db w) fiduciary_id).length <
        (get_fiduciary_webhooks db fiduciary_id).length := by
      unfold get_fiduciary_webhooks delete_webhook
      have hcomm : (db.filter (fun x => x.id != w.id)).filter
            (fun x => x.fiduciary_id == fiduciary_id) =
          (db.filter (fun x => x.fiduciary_id == fiduciary_id)).filter
            (fun x => x.id != w.id) := by
        rw [List.filter_filter, List.filter_filter]
        exact List.filter_congr (fun x _ => Bool.and_comm _ _)
      rw [hcomm]
      refine length_filter_lt_of_mem_not _ _ w
        (List.mem_filter.mpr ⟨hw, by simp [hfid]⟩) ?_
      simp
    unfold create_new_webhook
    rw [if_neg (by omega)]
    rfl

/-- C6 (witness): a concrete owner at the cap of 10 is rejected, and after
deleting one webhook a creation succeeds. -/
theorem create_new_webhook_limit_witness :
    (create_new_webhook
        ((List.range 10).map (fun i =>
          ⟨i, toString i, 1, "hook", "https://example.com/h", "s", ["all"], true⟩))
        1 "new hook" "https://example.com/new" ["all"] 99 "u99" "s99").1 =
      .error ⟨400, "Maximum webhook limit reached (10)"⟩ ∧
    (create_new_webhook
        (delete_webhook
          ((List.range 10).map (fun i =>
            ⟨i, toString i, 1, "hook", "https://example.com/h", "s", ["all"], true⟩))
          ⟨0, "0", 1, "hook", "https://example.com/h", "s", ["all"], true⟩)
        1 "new hook" "https://example.com/new" ["all"] 99 "u99" "s99").1 =
      .ok { id := 99, uuid := "u99", fiduciary_id := 1, name := "new hook",
            url := "https://example.com/new", secret := "s99", events := ["all"],
            is_active := true } := by
  constructor
  · have h := (create_new_webhook_limit
      ((List.range 10).map (fun i =>
        ⟨i, toString i, 1, "hook", "https://example.com/h", "s", ["all"], true⟩))
      1 "new hook" "https://example.com/new" ["all"] 99 "u99" "s99").1 (by decide)
    rw [h]
  · exact (create_new_webhook_limit
      ((List.range 10).map (fun i =>
        ⟨i, toString i, 1, "hook", "https://example.com/h", "s", ["all"], true⟩))
      1 "new hook" "https://example.com/new" ["all"] 99 "u99" "s99").2
      ⟨0, "0", 1, "hook", "https://example.com/h", "s", ["all"], true⟩
      (by decide) (by decide) (by decide)

/-! ## C2: single-label hostnames and the URL Safety Validator -/

/-- Lowercasing never produces a dot from a non-dot character. -/
theorem char_toLower_eq_dot {c : Char} (h : c.toLower = '.') : c = '.' := by
  unfold Char.toLower at h
  simp only [] at h
  by_cases hn : c.toNat ≥ 65 ∧ c.toNat ≤ 90
  · rw [if_pos hn] at h
    exfalso
    have hval : (c.toNat + 32).isValidChar := Or.inl (by omega)
    rw [Char.ofNat, dif_pos hval] at h
    have hv := congrArg Char.toNat h
    simp [Char.toNat, Char.ofNatAux, UInt32.toNat, BitVec.toNat_ofNatLt] at hv
    simp [Char.toNat, UInt32.toNat] at hn
    omega
  · rwa [if_neg hn] at h

/-- A dotless character list stays dotless under lowercasing. -/
theorem dot_not_mem_map_toLower {l : List Char} (h : '.' ∉ l) :
    '.' ∉ l.map Char.toLower := by
  intro hm
  obtain ⟨c, hc, hlow⟩ := List.mem_map.mp hm
  exact h (char_toLower_eq_dot hlow ▸ hc)

/-- Splitting a dotless character list at dots yields the single field. -/
theorem splitDots_no_dot (l : List Char) (h : '.' ∉ l) : splitDots l = [l] := by
  induction l with
  | nil => rfl
  | cons c t ih =>
      have hc : c ≠ '.' := fun hc => h (hc ▸ List.mem_cons_self _ _)
      have ht : '.' ∉ t := fun hm => h (List.mem_cons_of_mem _ hm)
      simp only [splitDots, List.foldr_cons] at ih ⊢
      rw [ih ht, if_neg hc]

/-- A pattern containing a character absent from a list is not a prefix of
that list. -/
theorem isPrefixOf_eq_false_of_mem_not {α : Type} [BEq α] [LawfulBEq α]
    {c : α} {p l : List α} (hc : c ∈ p) (hl : c ∉ l) : p.isPrefixOf l = false := by
  cases hpf : p.isPrefixOf l with
  | false => rfl
  | true => exact absurd ((List.isPrefixOf_iff_prefix.mp hpf).subset hc) hl

/-- A pattern containing a character absent from a list is not a suffix of
that list. -/
theorem isSuffixOf_eq_false_of_mem_not {α : Type} [BEq α] [LawfulBEq α]
    {c : α} {p l : List α} (hc : c ∈ p) (hl : c ∉ l) : p.isSuffixOf l = false := by
  cases hpf : p.isSuffixOf l with
  | false => rfl
  | true => exact absurd ((List.isSuffixOf_iff_suffix.mp hpf).subset hc) hl

/-- Every `blocked_patterns` entry requires a dot, so none matches a dotless
hostname. -/
theorem matchesBlockedPatterns_no_dot (h : String) (hd : '.' ∉ h.data) :
    matchesBlockedPatterns h = false := by
  have hl : '.' ∉ (strToLower h).data := by
    simpa [strToLower] using dot_not_mem_map_toLower hd
  simp only [matchesBlockedPatterns, Bool.or_eq_false_iff]
  refine ⟨⟨⟨⟨⟨⟨?_, ?_⟩, ?_⟩, ?_⟩, ?_⟩, ?_⟩, ?_⟩
  · exact isSuffixOf_eq_false_of_mem_not (c := '.') (by decide) hl
  · exact isSuffixOf_eq_false_of_mem_not (c := '.') (by decide) hl
  · exact isSuffixOf_eq_false_of_mem_not (c := '.') (by decide) hl
  · exact isPrefixOf_eq_false_of_mem_not (c := '.') (by decide) hl
  · exact isPrefixOf_eq_false_of_mem_not (c := '.') (by decide) hl
  · rw [List.any_eq_false]
    intro i _
    simp only [Bool.not_eq_true]
    refine isPrefixOf_eq_false_of_mem_not (c := '.') ?_ hl
    simp only [String.data_append]
    exact List.mem_append_left _ (List.mem_append_left _ (by decide))
  · exact isPrefixOf_eq_false_of_mem_not (c := '.') (by decide) hl

/-- C2 (counterexample): the single-label hostname `intranet` — a plain
alphanumeric token with no dot — passes the URL Safety Validator, and a
subscription creation carrying it is accepted, contradicting the claim that
every single-label hostname is rejected. -/
theorem webhookCreate_accepts_single_label_hostname :
    is_private_or_internal_url (some "intranet") = false ∧
    webhookCreateValidate "Main endpoint"
      ⟨"http://intranet/hook", some "intranet"⟩ ["all"] = .ok () := by
  constructor
  · decide
  · rfl

/-- C2 (amended): on single-label (dotless, colon-free) hostnames the
validator rejects exactly the localhost variants and the tokens that are not
purely alphanumeric/hyphen (Python's `isalnum` after removing hyphens, which
also rejects the empty hostname); plain alphanumeric/hyphen single labels
such as `intranet` are accepted.  The validator is what the create and
update schemas consult: with a valid name, creation fails with the unsafe-URL
message exactly when the validator blocks the hostname, and likewise for an
update that provides a URL. -/
theorem single_label_hostname_policy (h : String)
    (hdot : strContainsChar h '.' = false) (hcolon : strContainsChar h ':' = false) :
    (is_private_or_internal_url (some h) = true ↔
      (strToLower h = "localhost" ∨ strToLower h = "127.0.0.1" ∨
       strToLower h = "::1" ∨ strToLower h = "0.0.0.0" ∨
       pyIsAlnum (stripHyphens h) = false)) ∧
    (∀ name url events, 3 ≤ name.length → name.length ≤ 255 →
      (webhookCreateValidate name url events =
          .error "Webhook URL cannot point to private or internal networks" ↔
        is_private_or_internal_url url.hostname = true)) ∧
    (∀ name url events active,
      (webhookUpdateValidate name (some url) events active =
          .error "Webhook URL cannot point to private or internal networks" ↔
        is_private_or_internal_url url.hostname = true)) := by
  have hd : '.' ∉ h.data := by
    intro hm
    have he : h.data.contains '.' = true := by
      simpa [List.contains] using List.elem_iff.mpr hm
    simp only [strContainsChar] at hdot
    exact absurd (he.symm.trans hdot) (by decide)
  refine ⟨?_, ?_, ?_⟩
  · by_cases hemp : h.data.isEmpty
    · have hdata : h.data = [] := by simpa using hemp
      simp [is_private_or_internal_url, hemp, pyIsAlnum, stripHyphens, hdata]
    · by_cases hloc : (strToLower h = "localhost" ∨ strToLower h = "127.0.0.1" ∨
          strToLower h = "::1" ∨ strToLower h = "0.0.0.0")
      · rcases hloc with h1 | h1 | h1 | h1 <;>
          simp [is_private_or_internal_url, hemp, h1]
      · push_neg at hloc
        obtain ⟨hn1, hn2, hn3, hn4⟩ := hloc
        by_cases haln : pyIsAlnum (stripHyphens h)
        · simp [is_private_or_internal_url, hemp, hn1, hn2, hn3, hn4, hdot, hcolon,
            haln, parseIPv4, splitDots_no_dot _ hd, matchesBlockedPatterns_no_dot _ hd]
        · simp [is_private_or_internal_url, hemp, hn1, hn2, hn3, hn4, hdot, haln]
  · intro name url events hn1 hn2
    unfold webhookCreateValidate
    rw [if_neg (by omega), if_neg (by omega)]
    by_cases hpriv : is_private_or_internal_url url.hostname
    · rw [if_pos hpriv]
      simp [hpriv]
    · rw [if_neg hpriv]
      simp only [Bool.not_eq_true] at hpriv
      rw [hpriv]
      constructor
      · intro hcontra
        split at hcontra <;> simp_all
      · intro hcontra
        cases hcontra
  · intro name url events active
    have hred : webhookUpdateValidate name (some url) events active =
        (if is_private_or_internal_url url.hostname = true then
          Except.error "Webhook URL cannot point to private or internal networks"
        else webhookUpdateValidate.webhookUpdateValidateEvents name events active) := rfl
    rw [hred]
    by_cases hpriv : is_private_or_internal_url url.hostname
    · rw [if_pos hpriv]
      simp [hpriv]
    · rw [if_neg hpriv]
      simp only [Bool.not_eq_true] at hpriv
      rw [hpriv]
      unfold webhookUpdateValidate.webhookUpdateValidateEvents
      constructor
      · intro hcontra
        cases events with
        | none => cases hcontra
        | some es =>
            simp only [] at hcontra
            split at hcontra <;> simp_all
      · intro hcontra
        cases hcontra

/-- C2 (witness): the policy applied to two concrete single-label hostnames —
the alphanumeric/hyphen token is accepted, the underscore token is
rejected. -/
theorem single_label_hostname_policy_witness :
    is_private_or_internal_url (some "my-internal-host") = false ∧
    is_private_or_internal_url (some "my_host") = true := by
  have hp := single_label_hostname_policy "my-internal-host" (by decide) (by decide)
  have hq := single_label_hostname_policy "my_host" (by decide) (by decide)
  refine ⟨?_, hq.1.mpr (by decide)⟩
  have h1 := hp.1
  revert h1
  decide

/-! ## C8: update-time validation -/

/-- C8 (counterexample): `WebhookUpdate` declares no validator for `name`, so
an update providing the 2-character name `ab` — which creation would reject —
passes update validation. -/
theorem webhookUpdate_accepts_short_name :
    webhookUpdateValidate (some "ab") none none none = .ok () ∧
    webhookCreateValidate "ab" ⟨"https://example.com/h", some "example.com"⟩ ["all"]
      = .error "Name must be at least 3 characters" := by
  exact ⟨rfl, rfl⟩

/-- Update validation of the events field alone: accepted exactly when every
provided event lies in the known vocabulary. -/
theorem webhookUpdateValidateEvents_ok (name : Option String)
    (events : Option (List String)) (active : Option Bool) :
    (webhookUpdateValidate.webhookUpdateValidateEvents name events active = .ok () ↔
      ∀ es, events = some es → ∀ e ∈ es, e ∈ webhookEventValues) := by
  cases events with
  | none =>
      simp only [webhookUpdateValidate.webhookUpdateValidateEvents]
      constructor
      · rintro - es ⟨⟩
      · intro _
        trivial
  | some es =>
      simp only [webhookUpdateValidate.webhookUpdateValidateEvents]
      split
      · rename_i hany
        simp only [List.any_eq_true, Bool.not_eq_true'] at hany
        obtain ⟨e, he, hbad⟩ := hany
        constructor
        · intro hcontra
          cases hcontra
        · intro hall
          have hmem := hall es rfl e he
          rw [List.contains, List.elem_iff.mpr hmem] at hbad
          cases hbad
      · rename_i hany
        simp only [List.any_eq_false, Bool.not_eq_true, Bool.not_eq_false] at hany
        constructor
        · intro _ es' hes' e he
          cases hes'
          exact List.elem_iff.mp (by simpa [List.contains] using hany e he)
        · intro _
          trivial

/-- C8 (amended): update validation accepts exactly when every provided URL
passes the safety validator and every provided event lies in the known
vocabulary — a provided name is not validated at all — and the update itself
overwrites exactly the provided fields, leaving omitted fields unchanged. -/
theorem webhookUpdate_partial_validation (name : Option String)
    (url : Option ParsedUrl) (events : Option (List String)) (active : Option Bool)
    (w : Webhook) (urlStr : Option String) :
    (webhookUpdateValidate name url events active = .ok () ↔
      ((∀ u, url = some u → is_private_or_internal_url u.hostname = false) ∧
       (∀ es, events = some es → ∀ e ∈ es, e ∈ webhookEventValues))) ∧
    update_webhook w name urlStr events active =
      { w with name := name.getD w.name, url := urlStr.getD w.url,
               events := events.getD w.events, is_active := active.getD w.is_active } := by
  constructor
  · cases url with
    | none =>
        rw [show webhookUpdateValidate name none events active =
            webhookUpdateValidate.webhookUpdateValidateEvents name events active from rfl,
          webhookUpdateValidateEvents_ok]
        constructor
        · intro hev
          exact ⟨by rintro u ⟨⟩, hev⟩
        · exact fun hc => hc.2
    | some u =>
        rw [show webhookUpdateValidate name (some u) events active =
            (if is_private_or_internal_url u.hostname = true then
              Except.error "Webhook URL cannot point to private or internal networks"
            else webhookUpdateValidate.webhookUpdateValidateEvents name events active)
          from rfl]
        by_cases hpriv : is_private_or_internal_url u.hostname
        · rw [if_pos hpriv]
          constructor
          · intro hcontra
            cases hcontra
          · intro hc
            rw [hc.1 u rfl] at hpriv
            cases hpriv
        · rw [if_neg hpriv, webhookUpdateValidateEvents_ok]
          simp only [Bool.not_eq_true] at hpriv
          constructor
          · intro hev
            refine ⟨?_, hev⟩
            rintro u' hu'
            cases hu'
            exact hpriv
          · exact fun hc => hc.2
  · cases name <;> cases urlStr <;> cases events <;> cases active <;> rfl
